import Mathlib

/-!
Verification of the signaling/call-state core of the p2p-text-chat server
(`server.js`). The in-memory maps (`activeConnections`, `pendingOffers`,
`activeCalls`) are modelled as association lists with JavaScript `Map`
semantics: keys are unique, `set` replaces the value at the key in place (or
appends a new binding), `get` returns the binding, `delete` removes it,
iteration order is insertion order. Socket emissions are collected into an
explicit list of `Emitted` records. External persistence (the Mongoose
models) is modelled as plain record lists; reads are list lookups and store
round trips always succeed, as the spec treats the store as an opaque
lookup/write interface — but Mongoose *document validation* runs inside the
server process before any round trip, so the `Invite` schema's status enum
(`models/Invite.js`) is modelled: a `save()` with a status outside the enum
throws, landing in the handler's catch block.
-/

namespace Knock

/-- JS `Map.get`: the value bound to `k`, if any (first binding). -/
def mapGet {α : Type} (m : List (String × α)) (k : String) : Option α :=
  match m with
  | [] => none
  | p :: rest => if p.1 == k then some p.2 else mapGet rest k

/-- JS `Map.has`. -/
def mapHas {α : Type} (m : List (String × α)) (k : String) : Bool :=
  match m with
  | [] => false
  | p :: rest => p.1 == k || mapHas rest k

/-- JS `Map.set`: replace the binding of `k` in place, else append. -/
def mapSet {α : Type} (m : List (String × α)) (k : String) (v : α) :
    List (String × α) :=
  match m with
  | [] => [(k, v)]
  | p :: rest => if p.1 == k then (k, v) :: rest else p :: mapSet rest k v

/-- JS `Map.delete`. -/
def mapDelete {α : Type} (m : List (String × α)) (k : String) :
    List (String × α) :=
  match m with
  | [] => []
  | p :: rest => if p.1 == k then mapDelete rest k else p :: mapDelete rest k

theorem mapGet_set_self {α : Type} (m : List (String × α)) (k : String) (v : α) :
    mapGet (mapSet m k v) k = some v := by
  induction m with
  | nil => simp [mapGet, mapSet]
  | cons p rest ih =>
    by_cases h : p.1 = k
    · simp [mapGet, mapSet, h]
    · simp [mapGet, mapSet, h, ih]

theorem mapGet_set_other {α : Type} (m : List (String × α)) (k k' : String)
    (v : α) (hne : k' ≠ k) : mapGet (mapSet m k v) k' = mapGet m k' := by
  induction m with
  | nil => simp [mapGet, mapSet, Ne.symm hne]
  | cons p rest ih =>
    by_cases h : p.1 = k
    · simp [mapGet, mapSet, h, Ne.symm hne]
    · by_cases h' : p.1 = k'
      · simp [mapGet, mapSet, h, h', hne]
      · simp [mapGet, mapSet, h, h', ih]

theorem mapGet_delete_self {α : Type} (m : List (String × α)) (k : String) :
    mapGet (mapDelete m k) k = none := by
  induction m with
  | nil => simp [mapGet, mapDelete]
  | cons p rest ih =>
    by_cases h : p.1 = k
    · simp [mapDelete, h, ih]
    · simp [mapGet, mapDelete, h, ih]

theorem mapDelete_of_get_none {α : Type} (m : List (String × α)) (k : String)
    (h : mapGet m k = none) : mapDelete m k = m := by
  induction m with
  | nil => simp [mapDelete]
  | cons p rest ih =>
    by_cases hp : p.1 = k
    · simp [mapGet, hp] at h
    · simp [mapGet, hp] at h
      simp [mapDelete, hp, ih h]

/-- Call status: `'pending'` on initiation, `'accepted'` after call-accept. -/
inductive CallStatus
  | pending
  | accepted
deriving DecidableEq

/-- `activeCalls` entry: `{ chatId, callerUserId, calleeUserId, status, timestamp }`. -/
structure Call where
  chatId : String
  callerUserId : String
  calleeUserId : String
  status : CallStatus
  timestamp : Nat
deriving DecidableEq

/-- `pendingOffers` list element: `{ offer, chatId, fromUserId, fromUsername, timestamp }`. -/
structure PendingOffer where
  offer : String
  chatId : String
  fromUserId : String
  fromUsername : String
  timestamp : Nat
deriving DecidableEq

/-- The requesting socket: `socket.userId`, `socket.username`, `socket.id`. -/
structure Sender where
  userId : String
  username : String
  socketId : String

/-- Destination of an emission: a concrete socket (`io.to(sid)` / `socket.emit`)
or a broadcast to everyone except the given socket (`socket.broadcast.emit`). -/
inductive Dest
  | sock (socketId : String)
  | broadcastFrom (socketId : String)
deriving DecidableEq

/-- One server-to-client event with its payload fields, one constructor per
event name used by the handlers under verification. -/
inductive EventData
  | inviteError (msg : String)
  | errorMsg (msg : String)
  | newInvite (id fromName toName status message : String) (timestamp : Nat)
  | inviteSent (toUsername : String)
  | inviteAccepted (username chatId : String)
  | inviteRejected (username : String)
  | testEvt
  | callFailedInitiate (targetUserId chatId reason : String)
  | incomingCall (chatId fromUserId fromUsername callId : String)
  | callInitiated (targetUserId chatId callId message : String)
  | callAccepted (chatId acceptedBy acceptedByUserId callId : String)
  | callAcceptedWaitForOffer (chatId callId callerUserId : String)
  | callFailedAccept (chatId reason : String)
  | webrtcOfferRejected (chatId reason : String)
  | webrtcOfferEvt (offer chatId fromUserId fromUsername : String)
  | callTimeout (chatId callId : String)
  | callEnded (chatId reason callId : String)
  | userLeft (username : String)
deriving DecidableEq

/-- A single `emit`. -/
structure Emitted where
  dest : Dest
  data : EventData
deriving DecidableEq

/-- The server's in-memory mutable state: the three top-level `Map`s. -/
structure ServerState where
  activeConnections : List (String × String)
  pendingOffers : List (String × List PendingOffer)
  activeCalls : List (String × Call)
deriving DecidableEq

/-- `CALL_TIMEOUT_MS = 30 * 1000`. -/
def CALL_TIMEOUT_MS : Nat := 30 * 1000

/-- `WEBRTC_TIMEOUT_MS = 60 * 1000`. -/
def WEBRTC_TIMEOUT_MS : Nat := 60 * 1000

/-- `OFFER_EXPIRATION_MS = 5 * 60 * 1000`. -/
def OFFER_EXPIRATION_MS : Nat := 5 * 60 * 1000

/-- `generateCallId(chatId)`: backtick-template over chat id and `Date.now()`. -/
def generateCallId (chatId : String) (now : Nat) : String :=
  "call_" ++ chatId ++ "_" ++ toString now

/-- The expiry condition of `cleanExpiredOffers` for one call:
`now - call.timestamp > (status === 'accepted' ? WEBRTC : CALL)_TIMEOUT_MS`. -/
def isExpiredCall (now : Nat) (c : Call) : Bool :=
  let timeoutMs := if c.status = CallStatus.accepted then WEBRTC_TIMEOUT_MS
                   else CALL_TIMEOUT_MS
  decide (timeoutMs < now - c.timestamp)

/-- The per-call notifications of the expiry sweep: `call-timeout` to the
caller's socket and to the callee's socket, each only when registered. -/
def timeoutNotify (conns : List (String × String)) (callId : String) (c : Call) :
    List Emitted :=
  ((mapGet conns c.callerUserId).map
      (fun sid => Emitted.mk (Dest.sock sid) (EventData.callTimeout c.chatId callId))).toList ++
  ((mapGet conns c.calleeUserId).map
      (fun sid => Emitted.mk (Dest.sock sid) (EventData.callTimeout c.chatId callId))).toList

/-- The call-expiry loop of `cleanExpiredOffers`: walk the call map in
insertion order, delete each expired entry and collect its notifications,
keep the rest. -/
def sweepCalls (now : Nat) (conns : List (String × String)) :
    List (String × Call) → List (String × Call) × List Emitted
  | [] => ([], [])
  | p :: rest =>
    let r := sweepCalls now conns rest
    if isExpiredCall now p.2 then (r.1, timeoutNotify conns p.1 p.2 ++ r.2)
    else (p :: r.1, r.2)

/-- The pending-offer cleanup loop of `cleanExpiredOffers`: each user's list
is filtered to offers younger than `OFFER_EXPIRATION_MS`; entries whose list
becomes empty are deleted. -/
def cleanOffersMap (now : Nat) (po : List (String × List PendingOffer)) :
    List (String × List PendingOffer) :=
  (po.map (fun p =>
      (p.1, p.2.filter (fun o => decide (now - o.timestamp < OFFER_EXPIRATION_MS))))).filter
    (fun p => !p.2.isEmpty)

/-- `cleanExpiredOffers(io)` at time `now`: purge expired pending offers,
delete expired calls and notify both parties `call-timeout`. -/
def cleanExpiredOffers (st : ServerState) (now : Nat) : ServerState × List Emitted :=
  let r := sweepCalls now st.activeConnections st.activeCalls
  ({ st with pendingOffers := cleanOffersMap now st.pendingOffers,
             activeCalls := r.1 }, r.2)

/-- `storePendingOffer(targetUserId, offer, chatId, fromUserId, fromUsername)`:
append a pending offer to the target's buffer, creating it when absent.
(Defined in `server.js` but never invoked by any handler.) -/
def storePendingOffer (st : ServerState)
    (targetUserId offer chatId fromUserId fromUsername : String) (now : Nat) :
    ServerState :=
  let existing := (mapGet st.pendingOffers targetUserId).getD []
  let updated := existing ++ [⟨offer, chatId, fromUserId, fromUsername, now⟩]
  { st with pendingOffers := mapSet st.pendingOffers targetUserId updated }

/-- `deliverPendingOffers(userId, socket, io)`: clean expired state first,
then emit every buffered offer for `userId` to its socket and clear the
buffer. -/
def deliverPendingOffers (st : ServerState) (userId socketId : String)
    (now : Nat) : ServerState × List Emitted :=
  let r := cleanExpiredOffers st now
  let st1 := r.1
  match mapGet st1.pendingOffers userId with
  | some offers =>
      if offers.isEmpty then (st1, r.2)
      else
        ({ st1 with pendingOffers := mapDelete st1.pendingOffers userId },
         r.2 ++ offers.map (fun o =>
           Emitted.mk (Dest.sock socketId)
             (EventData.webrtcOfferEvt o.offer o.chatId o.fromUserId o.fromUsername)))
  | none => (st1, r.2)

/-- `socket.on('call-initiate')`: probe the target's presence (the probe
itself emits a `'test'` event when the target is registered); offline target
fails with `call-failed`/`User is offline` and leaves all state untouched;
otherwise create a pending `Call` under `generateCallId(chatId)` and notify
both ends. -/
def callInitiate (st : ServerState) (sender : Sender)
    (targetUserId chatId : String) (now : Nat) : ServerState × List Emitted :=
  match mapGet st.activeConnections targetUserId with
  | none =>
      (st, [Emitted.mk (Dest.sock sender.socketId)
              (EventData.callFailedInitiate targetUserId chatId "User is offline")])
  | some targetSid =>
      let callId := generateCallId chatId now
      let call : Call := ⟨chatId, sender.userId, targetUserId, CallStatus.pending, now⟩
      ({ st with activeCalls := mapSet st.activeCalls callId call },
       [Emitted.mk (Dest.sock targetSid) EventData.testEvt,
        Emitted.mk (Dest.sock targetSid)
          (EventData.incomingCall chatId sender.userId sender.username callId),
        Emitted.mk (Dest.sock sender.socketId)
          (EventData.callInitiated targetUserId chatId callId
            ("Call initiated to " ++ targetUserId))])

/-- `socket.on('call-accept')`: if `callId` is in `activeCalls`, set its
status to accepted and reset its timestamp (no check that the requester is
the call's callee, and no failure reported when `callId` is unknown); then
notify the payload-supplied `fromUserId` with `call-accepted` — if that user
is offline, emit `call-failed` to the requester and delete `callId`. -/
def callAccept (st : ServerState) (sender : Sender)
    (callId chatId fromUserId : String) (now : Nat) : ServerState × List Emitted :=
  let st1 :=
    match mapGet st.activeCalls callId with
    | some call =>
        let call' : Call := { call with status := CallStatus.accepted, timestamp := now }
        { st with activeCalls := mapSet st.activeCalls callId call' }
    | none => st
  match mapGet st1.activeConnections fromUserId with
  | some fromSid =>
      (st1, [Emitted.mk (Dest.sock fromSid)
               (EventData.callAccepted chatId sender.username sender.userId callId),
             Emitted.mk (Dest.sock sender.socketId)
               (EventData.callAcceptedWaitForOffer chatId callId fromUserId)])
  | none =>
      ({ st1 with activeCalls := mapDelete st1.activeCalls callId },
       [Emitted.mk (Dest.sock sender.socketId)
          (EventData.callFailedAccept chatId "Caller is no longer online")])

/-- `socket.on('webrtc-offer')`: authorize against an accepted `Call` with
matching chat/caller/callee; unauthorized offers are rejected with no state
change; with an online target the offer is forwarded; with an offline target
the handler emits `webrtc-offer-rejected` and deletes the first accepted call
of that chat (it stores no pending offer). -/
def webrtcOffer (st : ServerState) (sender : Sender)
    (targetUserId offer chatId : String) : ServerState × List Emitted :=
  let fromUserId := sender.userId
  match (st.activeCalls.map Prod.snd).find? (fun c =>
      decide (c.chatId = chatId ∧ c.status = CallStatus.accepted ∧
              c.callerUserId = fromUserId ∧ c.calleeUserId = targetUserId)) with
  | none =>
      (st, [Emitted.mk (Dest.sock sender.socketId)
              (EventData.webrtcOfferRejected chatId
                "No accepted call found. Please initiate call first.")])
  | some _ =>
      match mapGet st.activeConnections targetUserId with
      | some targetSid =>
          (st, [Emitted.mk (Dest.sock targetSid)
                  (EventData.webrtcOfferEvt offer chatId fromUserId sender.username)])
      | none =>
          let st' :=
            match st.activeCalls.find? (fun p =>
                decide (p.2.chatId = chatId ∧ p.2.status = CallStatus.accepted)) with
            | some p => { st with activeCalls := mapDelete st.activeCalls p.1 }
            | none => st
          (st', [Emitted.mk (Dest.sock sender.socketId)
                   (EventData.webrtcOfferRejected chatId
                     "Target user is no longer online")])

/-- `socket.on('disconnect')`: unconditionally delete the identity's presence
mapping (the handler never compares the registered socket id with the
disconnecting one), then delete every call involving the identity, notifying
the counterpart `call-ended` when still registered, and broadcast
`user-left`. The external user-store write is elided. -/
def disconnectHandler (st : ServerState) (sender : Sender) :
    ServerState × List Emitted :=
  let conns' := mapDelete st.activeConnections sender.userId
  let uid := sender.userId
  let involved := fun (c : Call) => decide (c.callerUserId = uid ∨ c.calleeUserId = uid)
  let ems := st.activeCalls.flatMap (fun p =>
    if involved p.2 then
      let otherUserId := if p.2.callerUserId = uid then p.2.calleeUserId
                         else p.2.callerUserId
      match mapGet conns' otherUserId with
      | some sid =>
          [Emitted.mk (Dest.sock sid)
             (EventData.callEnded p.2.chatId "Other user disconnected" p.1)]
      | none => []
    else [])
  let calls' := st.activeCalls.filter (fun p => !involved p.2)
  ({ st with activeConnections := conns', activeCalls := calls' },
   ems ++ [Emitted.mk (Dest.broadcastFrom sender.socketId)
             (EventData.userLeft sender.username)])

/-- A row of the user store, as the handlers read it (`_id`, `username`). -/
structure UserRec where
  id : String
  username : String
deriving DecidableEq

/-- An `Invite` document (`from`/`to` are `fromId`/`toId`; `from` is a Lean
keyword). `status` is stored as the raw string the handler assigns. -/
structure InviteRec where
  id : String
  fromId : String
  fromUsername : String
  toId : String
  toUsername : String
  status : String
  message : String
  createdAt : Nat
deriving DecidableEq

/-- A `Chat` document. -/
structure ChatRec where
  participants : List String
  participantUsernames : List String
  chatId : String
  isActive : Bool
  createdAt : Nat
deriving DecidableEq

/-- The backing store, modelled as the spec's opaque lookup/write interface:
reads are list lookups, writes always succeed (Mongoose validation and
round-trips are out of scope). -/
structure Db where
  users : List UserRec
  invites : List InviteRec
  chats : List ChatRec
deriving DecidableEq

/-- `socket.on('send-invite')`: resolve the target by username, refuse
self-invites, refuse when a pending invite `sender → target` exists (the
check is in this direction only), refuse when an active chat for the pair
exists, else persist a pending invite, notify the target when online and
acknowledge the sender. `freshId` stands for the id Mongo assigns. -/
def sendInvite (db : Db) (conns : List (String × String)) (sender : Sender)
    (toUsername message freshId : String) (now : Nat) : Db × List Emitted :=
  match db.users.find? (fun u => u.username == toUsername) with
  | none => (db, [Emitted.mk (Dest.sock sender.socketId)
                    (EventData.inviteError "User not found")])
  | some toUser =>
    if toUser.id = sender.userId then
      (db, [Emitted.mk (Dest.sock sender.socketId)
              (EventData.inviteError "Cannot invite yourself")])
    else
      match db.invites.find? (fun i =>
          decide (i.fromId = sender.userId ∧ i.toId = toUser.id ∧
                  i.status = "pending")) with
      | some _ =>
          (db, [Emitted.mk (Dest.sock sender.socketId)
                  (EventData.inviteError "Invite already sent")])
      | none =>
        match db.chats.find? (fun ch =>
            ch.participants.contains sender.userId &&
            ch.participants.contains toUser.id && ch.isActive) with
        | some _ =>
            (db, [Emitted.mk (Dest.sock sender.socketId)
                    (EventData.inviteError "Chat already exists with this user")])
        | none =>
          let inv : InviteRec :=
            ⟨freshId, sender.userId, sender.username, toUser.id, toUsername,
             "pending", message, now⟩
          let notif :=
            match mapGet conns toUser.id with
            | some sid =>
                [Emitted.mk (Dest.sock sid)
                   (EventData.newInvite freshId sender.username toUsername
                     "pending" message now)]
            | none => []
          ({ db with invites := db.invites ++ [inv] },
           notif ++ [Emitted.mk (Dest.sock sender.socketId)
                       (EventData.inviteSent toUsername)])

/-- Statuses admitted by the `Invite` schema enum (`models/Invite.js`).
Mongoose validates the document against the schema inside the server process
when `save()` is called, before any store round trip, and throws for any
other value. -/
def inviteStatusEnum : List String := ["pending", "accepted", "rejected"]

/-- `socket.on('respond-invite')`: look the invite up by id; unknown ids get
`error: 'Invite not found'`; a responder other than the invite's `to` gets
`Unauthorized`; then `invite.status = response; await invite.save()` — a
response outside the schema enum (in particular the client's raw `'accept'`
and `'reject'`) makes `save()` throw, so the catch block emits
`Failed to respond to invite` and nothing is persisted. When the save
succeeds the record keeps its new status (it is never deleted); on
`'accept'` a new `Chat` would be appended and both parties notified
`invite-accepted` (unreachable, as `'accept'` fails the enum first); any
other saved response notifies the sender `invite-rejected`. -/
def respondInvite (db : Db) (conns : List (String × String)) (sender : Sender)
    (inviteId response : String) (now : Nat) : Db × List Emitted :=
  match db.invites.find? (fun i => i.id == inviteId) with
  | none => (db, [Emitted.mk (Dest.sock sender.socketId)
                    (EventData.errorMsg "Invite not found")])
  | some inv =>
    if inv.toId ≠ sender.userId then
      (db, [Emitted.mk (Dest.sock sender.socketId)
              (EventData.errorMsg "Unauthorized")])
    else if !(inviteStatusEnum.contains response) then
      (db, [Emitted.mk (Dest.sock sender.socketId)
              (EventData.errorMsg "Failed to respond to invite")])
    else
      let inv' : InviteRec := { inv with status := response }
      let invites' := db.invites.map (fun i => if i.id == inv.id then inv' else i)
      if response = "accept" then
        let chatId := inv.fromUsername ++ "-" ++ inv.toUsername ++ "-" ++ toString now
        let chat : ChatRec :=
          ⟨[inv.fromId, inv.toId], [inv.fromUsername, inv.toUsername], chatId,
           true, now⟩
        let notif :=
          match mapGet conns inv.fromId with
          | some sid => [Emitted.mk (Dest.sock sid)
                           (EventData.inviteAccepted inv.toUsername chatId)]
          | none => []
        ({ db with invites := invites', chats := db.chats ++ [chat] },
         notif ++ [Emitted.mk (Dest.sock sender.socketId)
                     (EventData.inviteAccepted inv.fromUsername chatId)])
      else
        let notif :=
          match mapGet conns inv.fromId with
          | some sid => [Emitted.mk (Dest.sock sid)
                           (EventData.inviteRejected inv.toUsername)]
          | none => []
        ({ db with invites := invites' }, notif)

theorem mapSet_length_of_not_has {α : Type} (m : List (String × α)) (k : String)
    (v : α) (h : mapHas m k = false) : (mapSet m k v).length = m.length + 1 := by
  induction m with
  | nil => simp [mapSet]
  | cons p rest ih =>
    simp [mapHas] at h
    simp [mapSet, h.1, ih h.2]

/-- Claim C1: a `webrtc-offer` relay with no accepted Call matching the
(chatId, fromId, targetId) triple fails with the `NoAcceptedCall` rejection
(`webrtc-offer-rejected`) notified to the sender, forwards nothing to anyone,
and leaves the entire server state unchanged. -/
theorem webrtcOffer_noAcceptedCall (st : ServerState) (sender : Sender)
    (targetUserId offer chatId : String)
    (h : ∀ p ∈ st.activeCalls,
        ¬(p.2.chatId = chatId ∧ p.2.status = CallStatus.accepted ∧
          p.2.callerUserId = sender.userId ∧ p.2.calleeUserId = targetUserId)) :
    webrtcOffer st sender targetUserId offer chatId =
      (st, [Emitted.mk (Dest.sock sender.socketId)
              (EventData.webrtcOfferRejected chatId
                "No accepted call found. Please initiate call first.")]) := by
  simp only [webrtcOffer]
  have hf : (st.activeCalls.map Prod.snd).find? (fun c =>
      decide (c.chatId = chatId ∧ c.status = CallStatus.accepted ∧
              c.callerUserId = sender.userId ∧ c.calleeUserId = targetUserId)) = none := by
    apply List.find?_eq_none.mpr
    intro c hc
    rcases List.mem_map.mp hc with ⟨p, hp, hpc⟩
    simpa [hpc] using h p hp
  rw [hf]

/-- Witness for C1 at a concrete input: a call map holding only a still
pending call for the triple does not authorize the offer. -/
theorem webrtcOffer_noAcceptedCall_witness :
    webrtcOffer
        ⟨[("A", "sA"), ("B", "sB")], [],
         [("call_c_5", ⟨"c", "A", "B", CallStatus.pending, 5⟩)]⟩
        ⟨"A", "alice", "sA"⟩ "B" "o" "c" =
      (⟨[("A", "sA"), ("B", "sB")], [],
        [("call_c_5", ⟨"c", "A", "B", CallStatus.pending, 5⟩)]⟩,
       [Emitted.mk (Dest.sock "sA")
          (EventData.webrtcOfferRejected "c"
            "No accepted call found. Please initiate call first.")]) :=
  webrtcOffer_noAcceptedCall _ _ _ _ _ (by decide)

/-- Claim C2, evaluated at the failing input: two `call-initiate` requests
for the same chat `"c"` (callee online, timestamps 1000 and 1001) leave two
coexisting pending Call entries for that chat — the second initiate is
neither rejected nor does it replace the first. -/
theorem callInitiate_secondCall_coexists :
    ((callInitiate
        ((callInitiate ⟨[("B", "sB")], [], []⟩ ⟨"A", "alice", "sA"⟩ "B" "c" 1000).1)
        ⟨"A", "alice", "sA"⟩ "B" "c" 1001).1).activeCalls =
      [("call_c_1000", ⟨"c", "A", "B", CallStatus.pending, 1000⟩),
       ("call_c_1001", ⟨"c", "A", "B", CallStatus.pending, 1001⟩)] ∧
    (((callInitiate
        ((callInitiate ⟨[("B", "sB")], [], []⟩ ⟨"A", "alice", "sA"⟩ "B" "c" 1000).1)
        ⟨"A", "alice", "sA"⟩ "B" "c" 1001).1).activeCalls.filter
      (fun p => p.2.chatId == "c" &&
        (p.2.status == CallStatus.pending || p.2.status == CallStatus.accepted))).length = 2 := by
  constructor <;> rfl

/-- Claim C3, refuted at a concrete input: after identity `"u"` reconnects
and the registry maps `"u" ↦ "s2"`, a disconnect event for the stale handle
`"s1"` still removes the mapping — the registry no longer maps `"u"` to the
new handle, because the handler never compares handles. -/
theorem disconnect_stale_removes_new_mapping :
    ((disconnectHandler ⟨[("u", "s2")], [], []⟩ ⟨"u", "alice", "s1"⟩).1).activeConnections
      = [] := by
  rfl

/-- Claim C3 as amended: the disconnect handler removes the presence mapping
for the disconnecting identity unconditionally — regardless of whether the
registered handle equals the handle of the socket that disconnected. -/
theorem disconnect_unregisters_unconditionally (st : ServerState) (sender : Sender) :
    mapGet ((disconnectHandler st sender).1).activeConnections sender.userId = none := by
  unfold disconnectHandler
  exact mapGet_delete_self st.activeConnections sender.userId

/-- Claim C4, evaluated at the failing input: an authorized offer (accepted
Call for chat `"c"`, caller `"A"`, callee `"B"`) whose target `"B"` has no
presence entry is answered with `webrtc-offer-rejected` to the sender, the
pending-offer buffer stays empty (no Pending Offer is stored, no
`offer-pending` is emitted), and the accepted Call is deleted. -/
theorem webrtcOffer_offlineTarget_buffersNothing :
    webrtcOffer
        ⟨[("A", "sA")], [], [("call_c_0", ⟨"c", "A", "B", CallStatus.accepted, 0⟩)]⟩
        ⟨"A", "alice", "sA"⟩ "B" "o1" "c" =
      (⟨[("A", "sA")], [], []⟩,
       [Emitted.mk (Dest.sock "sA")
          (EventData.webrtcOfferRejected "c" "Target user is no longer online")]) := by
  rfl

/-- Claim C8: `call-initiate` with an offline callee fails with the
`TargetOffline` notification (`call-failed`, `User is offline`) to the caller
and leaves the whole state — in particular the call map — unchanged; with an
online callee exactly one new pending Call is created under the generated
call id (every other key unchanged, size grows by one when the id is fresh),
the callee receives `incoming-call` and the caller is acknowledged
(`call-initiated`) with the call id. -/
theorem callInitiate_offline_online (st : ServerState) (sender : Sender)
    (targetUserId chatId : String) (now : Nat) :
    (mapGet st.activeConnections targetUserId = none →
      callInitiate st sender targetUserId chatId now =
        (st, [Emitted.mk (Dest.sock sender.socketId)
                (EventData.callFailedInitiate targetUserId chatId "User is offline")])) ∧
    (∀ targetSid, mapGet st.activeConnections targetUserId = some targetSid →
      (callInitiate st sender targetUserId chatId now).1.activeCalls =
        mapSet st.activeCalls (generateCallId chatId now)
          ⟨chatId, sender.userId, targetUserId, CallStatus.pending, now⟩ ∧
      mapGet (callInitiate st sender targetUserId chatId now).1.activeCalls
          (generateCallId chatId now) =
        some ⟨chatId, sender.userId, targetUserId, CallStatus.pending, now⟩ ∧
      (∀ k, k ≠ generateCallId chatId now →
        mapGet (callInitiate st sender targetUserId chatId now).1.activeCalls k =
          mapGet st.activeCalls k) ∧
      (mapHas st.activeCalls (generateCallId chatId now) = false →
        (callInitiate st sender targetUserId chatId now).1.activeCalls.length =
          st.activeCalls.length + 1) ∧
      (callInitiate st sender targetUserId chatId now).2 =
        [Emitted.mk (Dest.sock targetSid) EventData.testEvt,
         Emitted.mk (Dest.sock targetSid)
           (EventData.incomingCall chatId sender.userId sender.username
             (generateCallId chatId now)),
         Emitted.mk (Dest.sock sender.socketId)
           (EventData.callInitiated targetUserId chatId (generateCallId chatId now)
             ("Call initiated to " ++ targetUserId))]) := by
  constructor
  · intro h
    unfold callInitiate
    rw [h]
  · intro targetSid h
    unfold callInitiate
    rw [h]
    refine ⟨rfl, ?_, ?_, ?_, rfl⟩
    · exact mapGet_set_self _ _ _
    · intro k hk
      exact mapGet_set_other _ _ _ _ hk
    · intro hfresh
      exact mapSet_length_of_not_has _ _ _ hfresh

/-- Witness for C8 at concrete inputs: an offline callee leaves the state
unchanged with a `call-failed` emission, and an online callee yields exactly
the pending Call entry with both notifications. -/
theorem callInitiate_offline_online_witness :
    callInitiate ⟨[], [], []⟩ ⟨"A", "alice", "sA"⟩ "B" "c" 7 =
      (⟨[], [], []⟩,
       [Emitted.mk (Dest.sock "sA")
          (EventData.callFailedInitiate "B" "c" "User is offline")]) ∧
    (callInitiate ⟨[("B", "sB")], [], []⟩ ⟨"A", "alice", "sA"⟩ "B" "c" 7).1.activeCalls =
      [("call_c_7", ⟨"c", "A", "B", CallStatus.pending, 7⟩)] := by
  constructor
  · exact (callInitiate_offline_online ⟨[], [], []⟩ ⟨"A", "alice", "sA"⟩ "B" "c" 7).1 rfl
  · have h := ((callInitiate_offline_online ⟨[("B", "sB")], [], []⟩
      ⟨"A", "alice", "sA"⟩ "B" "c" 7).2 "sB" rfl).1
    simpa using h

/-- Claim C7, refuted at a concrete input: a `call-accept` for the unknown
call id `"call_x_9"` (call map empty, payload `fromUserId = "A"` online) does
not report any NotFound failure to the requester — it still emits
`call-accepted` to `"A"` and `call-accepted-wait-for-offer` to the requester. -/
theorem callAccept_unknown_notifies_anyway :
    callAccept ⟨[("A", "sA"), ("B", "sB")], [], []⟩ ⟨"B", "bob", "sB"⟩
        "call_x_9" "c" "A" 50 =
      (⟨[("A", "sA"), ("B", "sB")], [], []⟩,
       [Emitted.mk (Dest.sock "sA") (EventData.callAccepted "c" "bob" "B" "call_x_9"),
        Emitted.mk (Dest.sock "sB")
          (EventData.callAcceptedWaitForOffer "c" "call_x_9" "A")]) := by
  rfl

/-- Claim C7 as amended: a `call-accept` whose call id is absent from the
call map creates and mutates no call state (the cleanup delete is a no-op),
but the requester receives no NotFound failure; the handler still emits
`call-accepted` to the payload's `fromUserId` when that user is registered
(plus `call-accepted-wait-for-offer` to the requester), and `call-failed` to
the requester when not. -/
theorem callAccept_unknown_callId (st : ServerState) (sender : Sender)
    (callId chatId fromUserId : String) (now : Nat)
    (h : mapGet st.activeCalls callId = none) :
    (∀ fromSid, mapGet st.activeConnections fromUserId = some fromSid →
      callAccept st sender callId chatId fromUserId now =
        (st, [Emitted.mk (Dest.sock fromSid)
                (EventData.callAccepted chatId sender.username sender.userId callId),
              Emitted.mk (Dest.sock sender.socketId)
                (EventData.callAcceptedWaitForOffer chatId callId fromUserId)])) ∧
    (mapGet st.activeConnections fromUserId = none →
      callAccept st sender callId chatId fromUserId now =
        (st, [Emitted.mk (Dest.sock sender.socketId)
                (EventData.callFailedAccept chatId "Caller is no longer online")])) := by
  constructor
  · intro fromSid hs
    simp only [callAccept, h, hs]
  · intro hn
    simp only [callAccept, h, hn]
    rw [mapDelete_of_get_none _ _ h]

/-- Witness for the amended C7 at a concrete input: unknown call id with the
payload `fromUserId` offline yields `call-failed` and an unchanged state. -/
theorem callAccept_unknown_callId_witness :
    callAccept ⟨[], [], []⟩ ⟨"B", "bob", "sB"⟩ "call_x_9" "c" "A" 50 =
      (⟨[], [], []⟩,
       [Emitted.mk (Dest.sock "sB")
          (EventData.callFailedAccept "c" "Caller is no longer online")]) :=
  (callAccept_unknown_callId ⟨[], [], []⟩ ⟨"B", "bob", "sB"⟩ "call_x_9" "c" "A" 50
    rfl).2 rfl

/-- Claim C10: `call-accept` performs no authorization or consistency check —
for any requester and any call id present in the map, the Call transitions to
accepted with its timestamp reset (no hypothesis ties the requester or the
payload to the stored `callerUserId`/`calleeUserId`), and `call-accepted`
goes to the socket of the payload-supplied `fromUserId`, not to the stored
`callerUserId`. -/
theorem callAccept_no_authorization (st : ServerState) (sender : Sender)
    (callId chatId fromUserId : String) (now : Nat) (call : Call) (fromSid : String)
    (hcall : mapGet st.activeCalls callId = some call)
    (hfrom : mapGet st.activeConnections fromUserId = some fromSid) :
    callAccept st sender callId chatId fromUserId now =
      ({ st with activeCalls := (mapSet st.activeCalls callId
           { call with status := CallStatus.accepted, timestamp := now }) },
       [Emitted.mk (Dest.sock fromSid)
          (EventData.callAccepted chatId sender.username sender.userId callId),
        Emitted.mk (Dest.sock sender.socketId)
          (EventData.callAcceptedWaitForOffer chatId callId fromUserId)]) ∧
    mapGet (callAccept st sender callId chatId fromUserId now).1.activeCalls callId =
      some { call with status := CallStatus.accepted, timestamp := now } := by
  have h1 : callAccept st sender callId chatId fromUserId now =
      ({ st with activeCalls := (mapSet st.activeCalls callId
           { call with status := CallStatus.accepted, timestamp := now }) },
       [Emitted.mk (Dest.sock fromSid)
          (EventData.callAccepted chatId sender.username sender.userId callId),
        Emitted.mk (Dest.sock sender.socketId)
          (EventData.callAcceptedWaitForOffer chatId callId fromUserId)]) := by
    simp only [callAccept, hcall, hfrom]
  refine ⟨h1, ?_⟩
  rw [h1]
  exact mapGet_set_self _ _ _

/-- Witness for C10 at a concrete input in which the requester `"E"` is
neither party of the stored call and the payload names `"X"` instead of the
stored caller `"A"`: the call still flips to accepted with a fresh timestamp
and `call-accepted` is delivered to `"X"`. -/
theorem callAccept_no_authorization_witness :
    callAccept
        ⟨[("X", "sX"), ("E", "sE")], [],
         [("k1", ⟨"c", "A", "B", CallStatus.pending, 0⟩)]⟩
        ⟨"E", "eve", "sE"⟩ "k1" "c" "X" 99 =
      (⟨[("X", "sX"), ("E", "sE")], [],
        [("k1", ⟨"c", "A", "B", CallStatus.accepted, 99⟩)]⟩,
       [Emitted.mk (Dest.sock "sX") (EventData.callAccepted "c" "eve" "E" "k1"),
        Emitted.mk (Dest.sock "sE")
          (EventData.callAcceptedWaitForOffer "c" "k1" "X")]) := by
  have h := (callAccept_no_authorization
    ⟨[("X", "sX"), ("E", "sE")], [], [("k1", ⟨"c", "A", "B", CallStatus.pending, 0⟩)]⟩
    ⟨"E", "eve", "sE"⟩ "k1" "c" "X" 99
    ⟨"c", "A", "B", CallStatus.pending, 0⟩ "sX" rfl rfl).1
  rw [h]
  rfl

/-- Claim C5, evaluated at the failing input: B accepts the pending invite
`"i1"` (A → B) with the client's payload `response = 'accept'`. The Invite
schema enum admits only pending/accepted/rejected, so `invite.save()` throws
in-process and the catch block emits the generic failure: no Chat is
created, both parties go unnotified, nothing is deleted — and a repeated
accept of the same invite id behaves identically, failing with
`Failed to respond to invite` rather than NotFound. -/
theorem respondInvite_accept_fails_validation :
    respondInvite ⟨[], [⟨"i1", "A", "alice", "B", "bob", "pending", "", 0⟩], []⟩
        [("A", "sA")] ⟨"B", "bob", "sB"⟩ "i1" "accept" 100 =
      (⟨[], [⟨"i1", "A", "alice", "B", "bob", "pending", "", 0⟩], []⟩,
       [Emitted.mk (Dest.sock "sB")
          (EventData.errorMsg "Failed to respond to invite")]) ∧
    respondInvite
        (respondInvite ⟨[], [⟨"i1", "A", "alice", "B", "bob", "pending", "", 0⟩], []⟩
          [("A", "sA")] ⟨"B", "bob", "sB"⟩ "i1" "accept" 100).1
        [("A", "sA")] ⟨"B", "bob", "sB"⟩ "i1" "accept" 200 =
      (⟨[], [⟨"i1", "A", "alice", "B", "bob", "pending", "", 0⟩], []⟩,
       [Emitted.mk (Dest.sock "sB")
          (EventData.errorMsg "Failed to respond to invite")]) := by
  constructor <;> rfl


/-- Claim C6, refuted at a concrete input: a pending invite B → A exists, yet
A's `send-invite` to B succeeds — no `DuplicatePending` error is emitted and
a second pending invite for the unordered pair `\x7bA,B\x7d` is created. -/
theorem sendInvite_reverse_pending_not_blocked :
    sendInvite
        ⟨[⟨"A", "alice"⟩, ⟨"B", "bob"⟩],
         [⟨"i0", "B", "bob", "A", "alice", "pending", "", 0⟩], []⟩
        [] ⟨"A", "alice", "sA"⟩ "bob" "" "i1" 5 =
      (⟨[⟨"A", "alice"⟩, ⟨"B", "bob"⟩],
        [⟨"i0", "B", "bob", "A", "alice", "pending", "", 0⟩,
         ⟨"i1", "A", "alice", "B", "bob", "pending", "", 5⟩], []⟩,
       [Emitted.mk (Dest.sock "sA") (EventData.inviteSent "bob")]) := by
  rfl

/-- Claim C6 as amended: the duplicate check of `send-invite` is directional.
With the target resolvable and distinct from the sender, a pending invite
from the sender to the target makes the request fail with the
`DuplicatePending` error (`Invite already sent`) and leaves the store
unchanged; but when no pending invite exists in that direction (and no
active chat exists for the pair) a new pending invite is appended even if a
pending invite in the reverse direction is present, so the two may coexist. -/
theorem sendInvite_duplicate_check_directional (db : Db)
    (conns : List (String × String)) (sender : Sender)
    (toUsername message freshId : String) (now : Nat) (toUser : UserRec)
    (hfind : db.users.find? (fun u => u.username == toUsername) = some toUser)
    (hself : toUser.id ≠ sender.userId) :
    ((∃ i ∈ db.invites, i.fromId = sender.userId ∧ i.toId = toUser.id ∧
        i.status = "pending") →
      sendInvite db conns sender toUsername message freshId now =
        (db, [Emitted.mk (Dest.sock sender.socketId)
                (EventData.inviteError "Invite already sent")])) ∧
    ((∀ i ∈ db.invites, ¬(i.fromId = sender.userId ∧ i.toId = toUser.id ∧
        i.status = "pending")) →
     (∀ ch ∈ db.chats, ¬(sender.userId ∈ ch.participants ∧
        toUser.id ∈ ch.participants ∧ ch.isActive = true)) →
      (sendInvite db conns sender toUsername message freshId now).1.invites =
        db.invites ++
          [⟨freshId, sender.userId, sender.username, toUser.id, toUsername,
            "pending", message, now⟩]) := by
  constructor
  · intro hdup
    have hsome : (db.invites.find? (fun i =>
        decide (i.fromId = sender.userId ∧ i.toId = toUser.id ∧
                i.status = "pending"))).isSome := by
      rw [List.find?_isSome]
      rcases hdup with ⟨i, hi, hp⟩
      exact ⟨i, hi, by simpa using hp⟩
    rcases Option.isSome_iff_exists.mp hsome with ⟨v, hv⟩
    simp only [sendInvite, hfind, hv]
    rw [if_neg hself]
  · intro hnodup hnochat
    have hnone : db.invites.find? (fun i =>
        decide (i.fromId = sender.userId ∧ i.toId = toUser.id ∧
                i.status = "pending")) = none := by
      apply List.find?_eq_none.mpr
      intro i hi
      simpa using hnodup i hi
    have hchat : db.chats.find? (fun ch =>
        ch.participants.contains sender.userId &&
        ch.participants.contains toUser.id && ch.isActive) = none := by
      apply List.find?_eq_none.mpr
      intro ch hch
      have := hnochat ch hch
      simp only [Bool.and_eq_true, List.contains_iff_exists_mem_beq] at *
      intro hcontra
      exact this ⟨by rcases hcontra.1.1 with ⟨a, ha, hab⟩;
                     exact (by simpa using hab : sender.userId = a) ▸ ha,
                  by rcases hcontra.1.2 with ⟨a, ha, hab⟩;
                     exact (by simpa using hab : toUser.id = a) ▸ ha,
                  hcontra.2⟩
    simp only [sendInvite, hfind, hnone, hchat]
    rw [if_neg hself]

/-- Witness for the amended C6 at a concrete input: with a pending invite
already sent from A to B, a second A → B attempt fails with `Invite already
sent` and mutates nothing. -/
theorem sendInvite_duplicate_check_directional_witness :
    sendInvite
        ⟨[⟨"A", "alice"⟩, ⟨"B", "bob"⟩],
         [⟨"i0", "A", "alice", "B", "bob", "pending", "", 0⟩], []⟩
        [] ⟨"A", "alice", "sA"⟩ "bob" "" "i1" 5 =
      (⟨[⟨"A", "alice"⟩, ⟨"B", "bob"⟩],
        [⟨"i0", "A", "alice", "B", "bob", "pending", "", 0⟩], []⟩,
       [Emitted.mk (Dest.sock "sA") (EventData.inviteError "Invite already sent")]) :=
  (sendInvite_duplicate_check_directional
      ⟨[⟨"A", "alice"⟩, ⟨"B", "bob"⟩],
       [⟨"i0", "A", "alice", "B", "bob", "pending", "", 0⟩], []⟩
      [] ⟨"A", "alice", "sA"⟩ "bob" "" "i1" 5 ⟨"B", "bob"⟩ rfl (by decide)).1
    ⟨⟨"i0", "A", "alice", "B", "bob", "pending", "", 0⟩, by decide, by decide⟩

theorem sweepCalls_keep (now : Nat) (conns : List (String × String))
    (l : List (String × Call)) :
    (sweepCalls now conns l).1 = l.filter (fun p => !isExpiredCall now p.2) := by
  induction l with
  | nil => rfl
  | cons p rest ih =>
    by_cases h : isExpiredCall now p.2 <;> simp [sweepCalls, h, ih]

theorem sweepCalls_countP_zero (now : Nat) (conns : List (String × String))
    (Q : Emitted → Bool) (l : List (String × Call)) (k : String)
    (hother : ∀ k' c', k' ≠ k → (timeoutNotify conns k' c').countP Q = 0)
    (hout : ∀ p ∈ l, p.1 ≠ k) :
    ((sweepCalls now conns l).2).countP Q = 0 := by
  induction l with
  | nil => rfl
  | cons p rest ih =>
    have hp : p.1 ≠ k := hout p (List.mem_cons_self p rest)
    have hrest : ∀ q ∈ rest, q.1 ≠ k := fun q hq => hout q (List.mem_cons_of_mem p hq)
    by_cases h : isExpiredCall now p.2
    · simp only [sweepCalls, h, if_true, List.countP_append]
      rw [hother p.1 p.2 hp, ih hrest]
    · simpa only [sweepCalls, h, Bool.false_eq_true, if_false] using ih hrest

theorem sweepCalls_countP (now : Nat) (conns : List (String × String))
    (Q : Emitted → Bool) (l : List (String × Call)) (k : String) (c : Call)
    (n : Nat) (hnd : (l.map Prod.fst).Nodup) (hmem : (k, c) ∈ l)
    (hexp : isExpiredCall now c = true)
    (hself : (timeoutNotify conns k c).countP Q = n)
    (hother : ∀ k' c', k' ≠ k → (timeoutNotify conns k' c').countP Q = 0) :
    ((sweepCalls now conns l).2).countP Q = n := by
  induction l with
  | nil => simp at hmem
  | cons p rest ih =>
    rcases List.mem_cons.mp hmem with hp | hp
    · subst hp
      have hout : ∀ q ∈ rest, q.1 ≠ k := by
        intro q hq hqk
        have hnotin : (k, c).1 ∉ rest.map Prod.fst := (List.nodup_cons.mp hnd).1
        have h1 : q.1 ∈ rest.map Prod.fst := List.mem_map_of_mem Prod.fst hq
        rw [hqk] at h1
        exact hnotin h1
      simp only [sweepCalls, hexp, if_true, List.countP_append]
      rw [hself, sweepCalls_countP_zero now conns Q rest k hother hout]
      omega
    · have hpk : p.1 ≠ k := by
        intro hqk
        have hnotin : p.1 ∉ rest.map Prod.fst := (List.nodup_cons.mp hnd).1
        have h1 : k ∈ rest.map Prod.fst := List.mem_map_of_mem Prod.fst hp
        rw [hqk] at hnotin
        exact hnotin h1
      have ihr := ih (List.nodup_cons.mp hnd).2 hp
      by_cases h : isExpiredCall now p.2
      · simp only [sweepCalls, h, if_true, List.countP_append]
        rw [hother p.1 p.2 hpk, ihr]
        omega
      · simpa only [sweepCalls, h, Bool.false_eq_true, if_false] using ihr

theorem timeoutNotify_countP_ne (conns : List (String × String))
    (k' : String) (c' : Call) (d : Dest) (x k : String) (hne : k' ≠ k) :
    (timeoutNotify conns k' c').countP
      (fun e => decide (e = Emitted.mk d (EventData.callTimeout x k))) = 0 := by
  unfold timeoutNotify
  cases mapGet conns c'.callerUserId <;> cases mapGet conns c'.calleeUserId <;>
    simp [hne]

/-- Claim C9, refuted at a concrete input: at `now = 31000` the sweep purges
the pending call `"k"` (age 31000 ms > 30000 ms), but the expired call
produces a single `call-timeout` emission in total — the offline caller
`"A"` receives none, so not each of the two parties is notified. -/
theorem cleanExpiredOffers_offline_party :
    cleanExpiredOffers
        ⟨[("B", "sB")], [], [("k", ⟨"c", "A", "B", CallStatus.pending, 0⟩)]⟩ 31000 =
      (⟨[("B", "sB")], [], []⟩,
       [Emitted.mk (Dest.sock "sB") (EventData.callTimeout "c" "k")]) := by
  rfl

/-- Claim C9 as amended: the sweep at time `now` keeps exactly the calls
whose age is at most the phase-appropriate timeout (30 s for pending, 60 s
for accepted) and deletes the rest; for each deleted call it emits exactly
one `call-timeout` to the caller's registered socket and exactly one to the
callee's registered socket — a party without a presence entry receives none
(shown at the concrete refutation above). -/
theorem cleanExpiredOffers_expiry (st : ServerState) (now : Nat)
    (hnd : (st.activeCalls.map Prod.fst).Nodup) :
    (∀ k c, (k, c) ∈ ((cleanExpiredOffers st now).1).activeCalls ↔
      ((k, c) ∈ st.activeCalls ∧ now - c.timestamp ≤
        (if c.status = CallStatus.accepted then WEBRTC_TIMEOUT_MS
         else CALL_TIMEOUT_MS))) ∧
    (∀ k c sidA sidB, (k, c) ∈ st.activeCalls →
      (if c.status = CallStatus.accepted then WEBRTC_TIMEOUT_MS
       else CALL_TIMEOUT_MS) < now - c.timestamp →
      mapGet st.activeConnections c.callerUserId = some sidA →
      mapGet st.activeConnections c.calleeUserId = some sidB → sidA ≠ sidB →
      ((cleanExpiredOffers st now).2.countP (fun e =>
          decide (e = Emitted.mk (Dest.sock sidA)
            (EventData.callTimeout c.chatId k))) = 1 ∧
       (cleanExpiredOffers st now).2.countP (fun e =>
          decide (e = Emitted.mk (Dest.sock sidB)
            (EventData.callTimeout c.chatId k))) = 1)) := by
  constructor
  · intro k c
    have hkeep : ((cleanExpiredOffers st now).1).activeCalls =
        st.activeCalls.filter (fun p => !isExpiredCall now p.2) := by
      simp only [cleanExpiredOffers]
      exact sweepCalls_keep now st.activeConnections st.activeCalls
    rw [hkeep, List.mem_filter]
    simp [isExpiredCall, Nat.not_lt]
  · intro k c sidA sidB hmem hage hA hB hAB
    have hexp : isExpiredCall now c = true := by
      simp [isExpiredCall]
      omega
    have hems : (cleanExpiredOffers st now).2 =
        (sweepCalls now st.activeConnections st.activeCalls).2 := rfl
    rw [hems]
    constructor
    · apply sweepCalls_countP now st.activeConnections _ st.activeCalls k c 1
        hnd hmem hexp
      · unfold timeoutNotify
        rw [hA, hB]
        simp [hAB, Ne.symm hAB]
      · intro k' c' hne
        exact timeoutNotify_countP_ne st.activeConnections k' c' _ _ _ hne
    · apply sweepCalls_countP now st.activeConnections _ st.activeCalls k c 1
        hnd hmem hexp
      · unfold timeoutNotify
        rw [hA, hB]
        simp [hAB, Ne.symm hAB]
      · intro k' c' hne
        exact timeoutNotify_countP_ne st.activeConnections k' c' _ _ _ hne

/-- Witness for the amended C9 at a concrete input: an accepted call aged
60001 ms with both parties online is purged with exactly one `call-timeout`
to each socket. -/
theorem cleanExpiredOffers_expiry_witness :
    ((cleanExpiredOffers
        ⟨[("A", "sA"), ("B", "sB")], [],
         [("k", ⟨"c", "A", "B", CallStatus.accepted, 0⟩)]⟩ 60001).2.countP (fun e =>
        decide (e = Emitted.mk (Dest.sock "sA") (EventData.callTimeout "c" "k"))) = 1 ∧
     (cleanExpiredOffers
        ⟨[("A", "sA"), ("B", "sB")], [],
         [("k", ⟨"c", "A", "B", CallStatus.accepted, 0⟩)]⟩ 60001).2.countP (fun e =>
        decide (e = Emitted.mk (Dest.sock "sB") (EventData.callTimeout "c" "k"))) = 1) :=
  (cleanExpiredOffers_expiry
      ⟨[("A", "sA"), ("B", "sB")], [], [("k", ⟨"c", "A", "B", CallStatus.accepted, 0⟩)]⟩
      60001 (by decide)).2 "k" ⟨"c", "A", "B", CallStatus.accepted, 0⟩ "sA" "sB"
    (by decide) (by decide) rfl rfl (by decide)

end Knock
